import Mathlib

/-!
A verification development for a network configuration tool
(`network-tool.py`).  The tool fingerprints a network device's vendor
dialect over an interactive shell channel, sequences command execution
(pagination disable, optional configuration-mode bracketing, commit/exit),
and diffs pre/post command captures.

The Python source is embedded shallowly: pure helpers become Lean
functions over `List Char` / `String`; the interactive shell channel is
modelled as an explicit queue of interaction steps, each step being the
text the channel delivers for one receive/collect call (or a raised
channel error).  External library behaviour (Python `difflib`,
`str.splitlines`, the `re` patterns used by the tool) is embedded
directly for the specific patterns the source uses.
-/

namespace NetworkTool

/-- Python `str` whitespace for `strip()` and the regex class `\s`
(ASCII range): space, tab, newline, carriage return, vertical tab,
form feed. -/
def isPySpace (c : Char) : Bool :=
  c = ' ' || c = '\t' || c = '\n' || c = '\r' || c = '\x0b' || c = '\x0c'

/-- Python `str.strip()` on a character list: drop leading and trailing
whitespace. -/
def pyStrip (l : List Char) : List Char :=
  ((l.dropWhile isPySpace).reverse.dropWhile isPySpace).reverse

/-- `pyStrip` lifted to `String` (used for hostnames: `hostname.strip()`). -/
def pyStripS (s : String) : String :=
  String.mk (pyStrip s.toList)

/-- Characters Python `str.splitlines` treats as line boundaries
(`\r\n` is handled as a single boundary by `splitlines`). -/
def isLineBreak (c : Char) : Bool :=
  c = '\n' || c = '\r' || c = '\x0b' || c = '\x0c' ||
  c = '\x1c' || c = '\x1d' || c = '\x1e' || c = '\u0085' ||
  c = '\u2028' || c = '\u2029'

/-- Python `str.splitlines`: accumulator-based splitter.  `cur` holds the
current line in reverse.  A trailing segment without a terminator is kept;
a trailing terminator adds no empty final line. -/
def splitlinesAux : List Char → List Char → List (List Char)
  | [], cur => if cur.isEmpty then [] else [cur.reverse]
  | '\r' :: '\n' :: rest, cur => cur.reverse :: splitlinesAux rest []
  | c :: rest, cur =>
    if isLineBreak c then cur.reverse :: splitlinesAux rest []
    else splitlinesAux rest (c :: cur)

/-- Python `s.splitlines()`. -/
def splitlines (s : String) : List (List Char) :=
  splitlinesAux s.toList []

/-- Substring test: Python `pat in s` (`True` for the empty pattern). -/
def containsSub (l pat : List Char) : Bool :=
  match l with
  | [] => pat.isEmpty
  | _ :: cs => pat.isPrefixOf l || containsSub cs pat

/-- Substring test on strings, e.g. `'syntax error' in output.lower()`. -/
def containsSubS (s pat : String) : Bool :=
  containsSub s.toList pat.toList

/-- Python `str.lower()` on a character list (ASCII case mapping as used
by the tool's vendor strings). -/
def pyLower (l : List Char) : List Char :=
  l.map Char.toLower

/-! ## State diff engine: normalization (`clean_output`, lines 249-261)

`clean_output` splits the capture into lines, drops blank lines, and
substitutes the regexes `\d{2}:\d{2}:\d{2}\.\d+` (with replacement
`XX:XX:XX.XXX`) and then `\d{2}:\d{2}:\d{2}` (with replacement
`XX:XX:XX`), each via `re.sub` — leftmost, non-overlapping matches, the
fractional-seconds pattern first, greedy `\d+`. -/

/-- One `re.sub(r'\d{2}:\d{2}:\d{2}', 'XX:XX:XX', line)` step: scan left
to right; at a match consume the eight matched characters, emit the
placeholder, and continue after the match; otherwise advance one
character. -/
def subTime : List Char → List Char
  | d1 :: d2 :: ':' :: d3 :: d4 :: ':' :: d5 :: d6 :: rest =>
    if d1.isDigit && d2.isDigit && d3.isDigit && d4.isDigit &&
        d5.isDigit && d6.isDigit then
      'X' :: 'X' :: ':' :: 'X' :: 'X' :: ':' :: 'X' :: 'X' :: subTime rest
    else
      d1 :: subTime (d2 :: ':' :: d3 :: d4 :: ':' :: d5 :: d6 :: rest)
  | c :: cs => c :: subTime cs
  | [] => []

/-- One `re.sub(r'\d{2}:\d{2}:\d{2}\.\d+', 'XX:XX:XX.XXX', line)` step:
like `subTime` but the match additionally requires `.` and at least one
digit, and the greedy `\d+` consumes the whole following digit run.
The flag `skipping` is true while the scanner is inside the tail of a
greedy digit run just consumed by a match; since every match begins with
a digit, the first non-digit after such a run can never start a match
and is emitted directly. -/
def subTimeFracGo : Bool → List Char → List Char
  | _, [] => []
  | true, c :: cs =>
    if c.isDigit then subTimeFracGo true cs else c :: subTimeFracGo false cs
  | false, d1 :: d2 :: ':' :: d3 :: d4 :: ':' :: d5 :: d6 :: '.' :: d7 :: rest =>
    if d1.isDigit && d2.isDigit && d3.isDigit && d4.isDigit &&
        d5.isDigit && d6.isDigit && d7.isDigit then
      'X' :: 'X' :: ':' :: 'X' :: 'X' :: ':' :: 'X' :: 'X' :: '.' ::
        'X' :: 'X' :: 'X' :: subTimeFracGo true rest
    else
      d1 :: subTimeFracGo false
        (d2 :: ':' :: d3 :: d4 :: ':' :: d5 :: d6 :: '.' :: d7 :: rest)
  | false, c :: cs => c :: subTimeFracGo false cs

/-- `re.sub` of the fractional-seconds timestamp pattern. -/
def subTimeFrac (l : List Char) : List Char :=
  subTimeFracGo false l

/-- The body of `clean_output` applied to one retained line: the
fractional-timestamp substitution, then the plain one. -/
def cleanLine (l : List Char) : List Char :=
  subTime (subTimeFrac l)

/-- `clean_output(output)` (lines 249-261): split into lines, skip lines
that are empty after stripping, substitute both timestamp patterns in
the remaining lines. -/
def cleanOutput (s : String) : List (List Char) :=
  ((splitlines s).filter (fun l => !(pyStrip l).isEmpty)).map cleanLine

/-! ## State diff engine: line comparison and report (`compare_outputs`)

The source delegates the sequence comparison to Python `difflib`
(`Differ().compare` and `unified_diff`), an external library.  Modelled
from the spec: a line-level, longest-common-subsequence-based sequence
comparison.  `Differ.compare` emits each line tagged `'- '` (only in
pre), `'+ '` (only in post), `'  '` (common), or `'? '`
(intraline-change hints; the model omits hint lines, which the source's
categorization loop skips anyway).  On equal inputs the whole comparison
is a single `equal` opcode, so every line comes out tagged as common —
the model agrees with `difflib` there exactly. -/

/-- A longest common subsequence of two line sequences, with explicit
fuel (any fuel at least the total length is enough; structural recursion
on the fuel keeps the definition kernel-reducible). -/
def lcsFuel : Nat → List (List Char) → List (List Char) → List (List Char)
  | 0, _, _ => []
  | fuel + 1, as0, bs0 =>
    match as0, bs0 with
    | [], _ => []
    | _ :: _, [] => []
    | a :: as, b :: bs =>
      if a = b then a :: lcsFuel fuel as bs
      else
        let l1 := lcsFuel fuel (a :: as) bs
        let l2 := lcsFuel fuel as (b :: bs)
        if l2.length ≤ l1.length then l1 else l2

/-- A longest common subsequence of two line sequences. -/
def lcs (as bs : List (List Char)) : List (List Char) :=
  lcsFuel (as.length + bs.length) as bs

/-- Tag of one line of a line-diff. -/
inductive DiffTag where
  | rem : DiffTag
  | add : DiffTag
  | com : DiffTag
deriving DecidableEq

/-- Emit the tagged diff of `as` against `bs` guided by a common
subsequence `cs`: lines of `as` before the next common line are
removals, lines of `bs` before it are additions, the common line itself
is emitted once, and leftovers after the last common line are removals
then additions. -/
def buildDiffFuel : Nat → List (List Char) → List (List Char) →
    List (List Char) → List (DiffTag × List Char)
  | 0, as, bs, _ =>
    as.map (fun l => (DiffTag.rem, l)) ++ bs.map (fun l => (DiffTag.add, l))
  | _ + 1, as, bs, [] =>
    as.map (fun l => (DiffTag.rem, l)) ++ bs.map (fun l => (DiffTag.add, l))
  | _ + 1, [], bs, _ :: _ => bs.map (fun l => (DiffTag.add, l))
  | _ + 1, a :: as, [], _ :: _ => (a :: as).map (fun l => (DiffTag.rem, l))
  | fuel + 1, a :: as, b :: bs, c :: cs =>
    if a ≠ c then (DiffTag.rem, a) :: buildDiffFuel fuel as (b :: bs) (c :: cs)
    else if b ≠ c then
      (DiffTag.add, b) :: buildDiffFuel fuel (a :: as) bs (c :: cs)
    else (DiffTag.com, c) :: buildDiffFuel fuel as bs cs

/-- Emit the tagged diff of `as` against `bs` guided by a common
subsequence. -/
def buildDiff (as bs cs : List (List Char)) : List (DiffTag × List Char) :=
  buildDiffFuel (as.length + bs.length) as bs cs

/-- The textual form `difflib.Differ().compare` delivers: each line
prefixed with its two-character tag. -/
def differCompare (pre post : List (List Char)) : List (List Char) :=
  (buildDiff pre post (lcs pre post)).map fun tl =>
    match tl.1 with
    | DiffTag.rem => '-' :: ' ' :: tl.2
    | DiffTag.add => '+' :: ' ' :: tl.2
    | DiffTag.com => ' ' :: ' ' :: tl.2

/-- The categorized differences of `compare_outputs` (lines 270-285). -/
structure Changes where
  added : List (List Char)
  removed : List (List Char)
  changed : List (List Char)
deriving DecidableEq

/-- The categorization loop of `compare_outputs` (lines 277-285): lines
starting `'+ '` go to `added` (without the tag), `'- '` to `removed`,
`'? '` are skipped, and every other line — including the common lines
tagged `'  '` — lands in `changed`, stripped of its first two
characters. -/
def categorize : List (List Char) → Changes
  | [] => ⟨[], [], []⟩
  | line :: rest =>
    let r := categorize rest
    if ['+', ' '].isPrefixOf line then
      ⟨line.drop 2 :: r.added, r.removed, r.changed⟩
    else if ['-', ' '].isPrefixOf line then
      ⟨r.added, line.drop 2 :: r.removed, r.changed⟩
    else if ['?', ' '].isPrefixOf line then r
    else ⟨r.added, r.removed, line.drop 2 :: r.changed⟩

/-- The `changes` dictionary `compare_outputs` computes for two raw
captures: normalize both, compare, categorize. -/
def compareChanges (preOutput postOutput : String) : Changes :=
  categorize (differCompare (cleanOutput preOutput) (cleanOutput postOutput))

/-- Modelled from the spec: `difflib.unified_diff(pre, post,
fromfile='Pre-Check', tofile='Post-Check', lineterm='')` — a standard
unified-diff rendering with fixed labels and no trailing line
terminators.  Equal inputs produce no output at all (the generator
yields nothing when there is no changed group); otherwise the two file
header lines, a hunk header, and the body lines prefixed `-`/`+`/space.
(The model renders a single full-context hunk; the source's claims only
exercise the no-difference case.) -/
def unifiedDiff (pre post : List (List Char)) : List (List Char) :=
  let d := buildDiff pre post (lcs pre post)
  if d.all (fun tl => tl.1 = DiffTag.com) then []
  else
    "--- Pre-Check".toList :: "+++ Post-Check".toList ::
    ("@@ -1," ++ toString pre.length ++ " +1," ++ toString post.length
      ++ " @@").toList ::
    d.map fun tl =>
      match tl.1 with
      | DiffTag.rem => '-' :: tl.2
      | DiffTag.add => '+' :: tl.2
      | DiffTag.com => ' ' :: tl.2

/-- The bytes `compare_outputs` writes into the report file
(lines 291-314): header, the `Added Configurations` and
`Removed Configurations` sections from the categorized changes, and the
`Detailed Diff` section holding the unified diff joined with newlines. -/
def reportContent (preOutput postOutput hostname : String) : String :=
  let preLines := cleanOutput preOutput
  let postLines := cleanOutput postOutput
  let changes := categorize (differCompare preLines postLines)
  "Change Report for " ++ hostname ++ "\n" ++
  String.mk (List.replicate 80 '=') ++ "\n\n" ++
  "Added Configurations:\n" ++
  String.mk (List.replicate 40 '-') ++ "\n" ++
  String.join (changes.added.map (fun l => "+ " ++ String.mk l ++ "\n")) ++
  "\n" ++
  "Removed Configurations:\n" ++
  String.mk (List.replicate 40 '-') ++ "\n" ++
  String.join (changes.removed.map (fun l => "- " ++ String.mk l ++ "\n")) ++
  "\n" ++
  "Detailed Diff:\n" ++
  String.mk (List.replicate 40 '-') ++ "\n" ++
  String.intercalate "\n" ((unifiedDiff preLines postLines).map String.mk)

/-- `compare_outputs(pre_output, post_output, hostname)` (lines 247-316)
as a function of its inputs and of the one volatile value it reads, the
current clock (`datetime.now().strftime(...)`, passed here as `now`):
it returns the report filename and writes the report content. -/
def compareOutputs (preOutput postOutput hostname now : String) :
    String × String :=
  (hostname ++ "_diff_report_" ++ now ++ ".txt",
   reportContent preOutput postOutput hostname)

/-! ## Device profile table (`DeviceCommands`, lines 15-49)

Each static method holds a dict keyed by device-type string and falls
back to the `'default'` entry via `commands.get(device_type,
commands['default'])`. -/

/-- The `commands` dict of `DeviceCommands.get_pagination_command`. -/
def paginationCommands : List (String × String) :=
  [("juniper", "set cli screen-length 0"),
   ("cisco-ios", "terminal length 0"),
   ("cisco-nxos", "terminal length 0"),
   ("arista", "terminal length 0"),
   ("default", "terminal length 0")]

/-- `DeviceCommands.get_pagination_command(device_type)`. -/
def getPaginationCommand (deviceType : String) : String :=
  (paginationCommands.lookup deviceType).getD "terminal length 0"

/-- The `commands` dict of `DeviceCommands.get_config_mode_command`. -/
def configModeCommands : List (String × String) :=
  [("juniper", "configure"),
   ("cisco-ios", "configure terminal"),
   ("cisco-nxos", "configure terminal"),
   ("arista", "configure terminal"),
   ("default", "configure terminal")]

/-- `DeviceCommands.get_config_mode_command(device_type)`. -/
def getConfigModeCommand (deviceType : String) : String :=
  (configModeCommands.lookup deviceType).getD "configure terminal"

/-- The `commands` dict of `DeviceCommands.get_commit_command`. -/
def commitCommands : List (String × String) :=
  [("juniper", "commit and-quit"),
   ("cisco-ios", "end"),
   ("cisco-nxos", "end"),
   ("arista", "end"),
   ("default", "end")]

/-- `DeviceCommands.get_commit_command(device_type)`. -/
def getCommitCommand (deviceType : String) : String :=
  (commitCommands.lookup deviceType).getD "end"

/-! ## Shell channel model

The source talks to a `paramiko` interactive shell: `shell.send(text)`,
raw `shell.recv(1024)` reads, and windowed collection through
`get_command_output`.  The channel is external to the repository;
per the spec's Session Channel interface it delivers whatever bytes are
ready (possibly none) for each read.  A channel is modelled as the queue
of per-interaction results, one entry consumed by each raw receive or
each collection window; an entry either carries the delivered text or
raises a channel error.  A raw `shell.recv` propagates the error;
`get_command_output` swallows exceptions internally (its `except:
break`) and yields what was accumulated, here abstracted as the empty
string.  An exhausted queue delivers empty text (a silent device). -/

/-- One channel interaction's result. -/
inductive Step where
  | ok : String → Step
  | err : String → Step
deriving DecidableEq

/-- A raw `shell.recv(1024)`: delivers the next queue entry, propagating
a channel error as an exception. -/
def popRaw : List Step → Except String (String × List Step)
  | [] => Except.ok ("", [])
  | Step.ok s :: rest => Except.ok (s, rest)
  | Step.err m :: _ => Except.error m

/-- A `get_command_output(shell)` call at channel granularity: delivers
the next queue entry; a channel error is swallowed by the collector's
`except: break`, yielding the text accumulated so far (empty here). -/
def popCollect : List Step → String × List Step
  | [] => ("", [])
  | Step.ok s :: rest => (s, rest)
  | Step.err _ :: rest => ("", rest)

/-! ## Command sequencer (`execute_commands`, lines 178-209) -/

/-- The configuration-batch sniff applied to one command:
`cmd.strip().lower().startswith(('set', 'conf'))`. -/
def sniffsConfig (cmd : String) : Bool :=
  let t := pyLower (pyStrip cmd.toList)
  "set".toList.isPrefixOf t || "conf".toList.isPrefixOf t

/-- The batch-level sniff (lines 190 and 203):
`any(cmd.strip().lower().startswith(('set', 'conf')) for cmd in commands)`. -/
def isConfigBatch (commands : List String) : Bool :=
  commands.any sniffsConfig

/-- The per-command loop of `execute_commands` (lines 197-200): send
each command, collect its output, accumulate. -/
def runCommandLoop : List Step → List String → String → String × List Step
  | ch, [], acc => (acc, ch)
  | ch, _ :: cs, acc =>
    let (out, ch') := popCollect ch
    runCommandLoop ch' cs (acc ++ out)

instance {ε α : Type} [DecidableEq ε] [DecidableEq α] :
    DecidableEq (Except ε α) := fun x y =>
  match x, y with
  | Except.ok a, Except.ok b =>
    if h : a = b then isTrue (by rw [h])
    else isFalse (fun hh => h (by injection hh))
  | Except.error a, Except.error b =>
    if h : a = b then isTrue (by rw [h])
    else isFalse (fun hh => h (by injection hh))
  | Except.ok _, Except.error _ => isFalse (fun hh => Except.noConfusion hh)
  | Except.error _, Except.ok _ => isFalse (fun hh => Except.noConfusion hh)

/-- Result of one `execute_commands` call: the transcript (or the
exception that escaped), the remaining channel, and the trace of
commands sent, in order. -/
structure ExecResult where
  outcome : Except String String
  rest : List Step
  sends : List String
deriving DecidableEq

/-- `execute_commands(shell, commands, device_type)` (lines 178-209):
send the pagination-disable command and clear the buffer with a raw
receive; if the batch sniffs as configuration, send the config-mode
command and clear the buffer; send each command collecting output; if
the batch sniffed as configuration, send the commit command and collect
its output.  The two raw buffer-clearing receives (lines 187 and 194)
can propagate a channel error; collection windows cannot. -/
def executeCommands (ch : List Step) (commands : List String)
    (deviceType : String) : ExecResult :=
  let pagination := getPaginationCommand deviceType
  match popRaw ch with
  | Except.error m => ⟨Except.error m, [], [pagination]⟩
  | Except.ok (_, ch1) =>
    if isConfigBatch commands then
      let configCmd := getConfigModeCommand deviceType
      match popRaw ch1 with
      | Except.error m => ⟨Except.error m, [], [pagination, configCmd]⟩
      | Except.ok (_, ch2) =>
        let (outputData, ch3) := runCommandLoop ch2 commands ""
        let commitCmd := getCommitCommand deviceType
        let (commitOut, ch4) := popCollect ch3
        ⟨Except.ok (outputData ++ commitOut), ch4,
         pagination :: configCmd :: commands ++ [commitCmd]⟩
    else
      let (outputData, ch3) := runCommandLoop ch1 commands ""
      ⟨Except.ok outputData, ch3, pagination :: commands⟩

/-- A channel that never raises. -/
def okChan (q : List String) : List Step :=
  q.map Step.ok

/-! ## Device fingerprint detector (`identify_device_type`, lines 92-159) -/

/-- Try the pattern `^Model:\s*(\S+)` at one position known to be a line
start: the literal `Model:`, then greedy whitespace (Python `\s`, which
crosses newlines), then at least one non-whitespace character captured
greedily. -/
def modelTokenAt (l : List Char) : Option (List Char) :=
  if "Model:".toList.isPrefixOf l then
    let afterWs := (l.drop 6).dropWhile isPySpace
    let tok := afterWs.takeWhile (fun c => !isPySpace c)
    if tok.isEmpty then none else some tok
  else none

/-- `re.search(r'^Model:\s*(\S+)', version_output, re.MULTILINE)`: scan
left to right; the anchor `^` admits only the start of the string and
positions directly after `'\n'`; return the first capture. -/
def scanModel : List Char → Bool → Option (List Char)
  | [], _ => none
  | c :: cs, atLineStart =>
    match if atLineStart then modelTokenAt (c :: cs) else none with
    | some tok => some tok
    | none => scanModel cs (c = '\n')

/-- The first `Model:` capture of a version output, if any. -/
def juniperModelToken (versionOutput : String) : Option (List Char) :=
  scanModel versionOutput.toList true

/-- The Juniper model dispatch (lines 110-120): the captured token is
lowercased and classified by substring membership, `mx` first. -/
def classifyJuniperModel (tok : List Char) : String :=
  let model := pyLower tok
  if containsSub model "mx".toList then "juniper-mx"
  else if containsSub model "ex".toList then "juniper-ex"
  else if containsSub model "srx".toList then "juniper-srx"
  else if containsSub model "qfx".toList then "juniper-qfx"
  else "juniper-unknown"

/-- Scan for a literal followed by at least one decimal digit, the shape
of the patterns `ASR\d+`, `ISR\d+`, `CSR\d+`, `C\d+` and `DCS-\d+`
(all case-sensitive). -/
def hasLitDigit (lit : List Char) : List Char → Bool
  | [] => false
  | c :: cs =>
    (lit.isPrefixOf (c :: cs) &&
      (match (c :: cs).drop lit.length with
       | d :: _ => d.isDigit
       | [] => false)) ||
    hasLitDigit lit cs

/-- Scan for the pattern `N[1-9][K]`. -/
def hasNexusSeries : List Char → Bool
  | 'N' :: d :: 'K' :: rest =>
    ('1' ≤ d && d ≤ '9') || hasNexusSeries (d :: 'K' :: rest)
  | _ :: cs => hasNexusSeries cs
  | [] => false

/-- The Cisco/Arista classification of a version output
(lines 131-159). -/
def ciscoDetect (versionOutput : String) : String :=
  let v := versionOutput.toList
  let lv := pyLower v
  if containsSub lv "cisco ios".toList || containsSub lv "ios software".toList then
    if hasLitDigit "ASR".toList v then "cisco-ios-asr"
    else if hasLitDigit "ISR".toList v then "cisco-ios-isr"
    else if hasLitDigit "CSR".toList v then "cisco-ios-csr"
    else if hasLitDigit "C".toList v then "cisco-ios-catalyst"
    else "cisco-ios"
  else if containsSub lv "nx-os".toList || containsSub lv "nexus".toList then
    if hasNexusSeries v then "cisco-nxos" else "cisco-nxos-unknown"
  else if containsSub lv "arista".toList then
    if hasLitDigit "DCS-".toList v then "arista-dcs" else "arista"
  else "unknown"

/-- Result of `identify_device_type`: the classification (or the
channel exception that escaped), the remaining channel, and the probe
and query commands sent, in order. -/
structure IdentifyResult where
  outcome : Except String String
  rest : List Step
  sends : List String
deriving DecidableEq

/-- The Cisco/Arista identification tail (lines 122-159): send the
Cisco pagination probe, clear the buffer with a raw receive (which can
propagate a channel error), send `show version`, collect its output,
and classify. -/
def identifyCiscoPart (ch : List Step) (sendsSoFar : List String) :
    IdentifyResult :=
  match popRaw ch with
  | Except.error m =>
    ⟨Except.error m, [], sendsSoFar ++ ["terminal length 0"]⟩
  | Except.ok (_, ch1) =>
    let (versionOutput, ch2) := popCollect ch1
    ⟨Except.ok (ciscoDetect versionOutput), ch2,
     sendsSoFar ++ ["terminal length 0", "show version"]⟩

/-- `identify_device_type(shell)` (lines 92-159): send the Juniper
pagination probe and read the response raw (line 99, can propagate a
channel error).  If the response lacks `syntax error`
(case-insensitive), query `show version` through the collector and
classify by the `Model:` capture; with no capture, or with a
`syntax error` response, fall through to the Cisco/Arista tail. -/
def identifyDeviceType (ch : List Step) : IdentifyResult :=
  let juniperProbe := "set cli screen-length 0"
  match popRaw ch with
  | Except.error m => ⟨Except.error m, [], [juniperProbe]⟩
  | Except.ok (output, ch1) =>
    if !containsSub (pyLower output.toList) "syntax error".toList then
      let (versionOutput, ch2) := popCollect ch1
      match juniperModelToken versionOutput with
      | some tok =>
        ⟨Except.ok (classifyJuniperModel tok), ch2,
         [juniperProbe, "show version"]⟩
      | none => identifyCiscoPart ch2 [juniperProbe, "show version"]
    else identifyCiscoPart ch1 [juniperProbe]

/-! ## Output collector (`get_command_output`, lines 161-176)

The poll loop in discrete time: the loop runs while elapsed time is
below the timeout; each iteration performs either a ready-check plus a
receive, or a 0.1-second sleep.  Time is modelled in polling ticks, one
tick per loop iteration; the channel's behaviour at each tick is an
arbitrary function of the tick index. -/

/-- What the channel does at one polling tick. -/
inductive Poll where
  | ready : String → Poll
  | notReady : Poll
  | raised : Poll

/-- The poll loop of `get_command_output`: `fuel` is the number of
ticks left in the window, `tick` the current tick index, `acc` the text
accumulated so far.  A delivered empty chunk breaks out of the loop
(line 169-170), an exception breaks out (line 174-175), `notReady`
sleeps the tick away (line 173); the loop also ends when the window is
exhausted.  Returns the accumulated text and the tick at which the call
returned. -/
def collectLoop (chan : Nat → Poll) : Nat → Nat → String → String × Nat
  | 0, tick, acc => (acc, tick)
  | fuel + 1, tick, acc =>
    match chan tick with
    | Poll.ready s =>
      if s = "" then (acc, tick) else collectLoop chan fuel (tick + 1) (acc ++ s)
    | Poll.notReady => collectLoop chan fuel (tick + 1) acc
    | Poll.raised => (acc, tick)

/-- `get_command_output(shell, timeout)` in ticks: run the poll loop
for a window of `timeout` ticks from tick 0 with an empty accumulator;
returns the accumulated output and the number of ticks consumed. -/
def getCommandOutput (timeout : Nat) (chan : Nat → Poll) : String × Nat :=
  collectLoop chan timeout 0 ""

/-! ## Config-push orchestration (`config_push`, lines 318-362)

`config_push` loops over the hostnames; per host it connects, identifies
the device type once, runs the pre-check, config and post-check batches
with that device type, and writes each phase's transcript under
`results[hostname][phase]`; any exception is caught per host and stored
as `results[hostname]['error']`.  `results` is a `defaultdict(dict)`
keyed by stripped hostname.  A host's environment is either a failed
connection (`paramiko.connect` raising) or a connected channel queue. -/

/-- One host's entry in `results`: the inner dict, whose only possible
keys are the three phase transcripts and the error marker.  A `none`
field is an absent key. -/
structure HostResult where
  pre_check : Option String
  config : Option String
  post_check : Option String
  error : Option String
deriving DecidableEq

/-- What the world does for one host: the connection attempt raises, or
it yields a connected shell channel. -/
inductive HostBehavior where
  | connectFail : String → HostBehavior
  | connected : List Step → HostBehavior

/-- One host's processing inside the `config_push` loop (lines 323-360),
together with the list of `device_type` values passed to the successive
`execute_commands` calls (the phase dialect trace).  The device type is
computed once by `identify_device_type` right after connecting; each
later phase receives that value.  An exception at any point jumps to the
handler, which stores the error marker and leaves the keys already
written in place. -/
def runHostTrace (preCommands configCommands postCommands : List String) :
    HostBehavior → HostResult × List String
  | HostBehavior.connectFail m => (⟨none, none, none, some m⟩, [])
  | HostBehavior.connected ch =>
    match identifyDeviceType ch with
    | ⟨Except.error m, _, _⟩ => (⟨none, none, none, some m⟩, [])
    | ⟨Except.ok deviceType, ch1, _⟩ =>
      match executeCommands ch1 preCommands deviceType with
      | ⟨Except.error m, _, _⟩ => (⟨none, none, none, some m⟩, [deviceType])
      | ⟨Except.ok preOut, ch2, _⟩ =>
        match executeCommands ch2 configCommands deviceType with
        | ⟨Except.error m, _, _⟩ =>
          (⟨some preOut, none, none, some m⟩, [deviceType, deviceType])
        | ⟨Except.ok configOut, ch3, _⟩ =>
          match executeCommands ch3 postCommands deviceType with
          | ⟨Except.error m, _, _⟩ =>
            (⟨some preOut, some configOut, none, some m⟩,
             [deviceType, deviceType, deviceType])
          | ⟨Except.ok postOut, _, _⟩ =>
            (⟨some preOut, some configOut, some postOut, none⟩,
             [deviceType, deviceType, deviceType])

/-- One host's net `results` entry. -/
def runHost (preCommands configCommands postCommands : List String)
    (b : HostBehavior) : HostResult :=
  (runHostTrace preCommands configCommands postCommands b).1

/-- Merge a later iteration's writes for the same hostname key into an
existing inner dict: a key written later overwrites, an unwritten key
keeps its old value. -/
def mergeResult (old new : HostResult) : HostResult :=
  ⟨new.pre_check.or old.pre_check, new.config.or old.config,
   new.post_check.or old.post_check, new.error.or old.error⟩

/-- `defaultdict` update: write `r`'s keys under `k`, creating the entry
at the end on first touch (Python dicts preserve insertion order). -/
def dictUpdate : List (String × HostResult) → String → HostResult →
    List (String × HostResult)
  | [], k, r => [(k, r)]
  | (k', r') :: rest, k, r =>
    if k' = k then (k', mergeResult r' r) :: rest
    else (k', r') :: dictUpdate rest k r

/-- `config_push(hostname_list, ...)` (lines 318-362): process each
host in order — `behavior` gives each host's world — accumulating the
per-host results dict. -/
def configPush (hostnameList : List String) (behavior : String → HostBehavior)
    (preCommands configCommands postCommands : List String) :
    List (String × HostResult) :=
  hostnameList.foldl
    (fun results hostname =>
      dictUpdate results (pyStripS hostname)
        (runHost preCommands configCommands postCommands
          (behavior (pyStripS hostname))))
    []

/-! ### Concrete multi-host scenario material -/

/-- A channel transcript for a complete successful Juniper MX session:
two identification reads, two pre-check interactions, four config
interactions, two post-check interactions. -/
def goodChan : List Step :=
  [Step.ok "x", Step.ok "Model: mx104", Step.ok "", Step.ok "pre-out",
   Step.ok "", Step.ok "", Step.ok "set-out", Step.ok "commit-out",
   Step.ok "", Step.ok "post-out"]

/-- Like `goodChan` but the channel dies at the start of the post-check
phase. -/
def failPostChan : List Step :=
  [Step.ok "x", Step.ok "Model: mx104", Step.ok "", Step.ok "pre-out",
   Step.ok "", Step.ok "", Step.ok "set-out", Step.ok "commit-out",
   Step.err "Socket is closed"]

/-- The three-host scenario of the spec. -/
def scenarioHosts : List String := ["h1", "h2", "h3"]

/-- Pre-check batch of the scenario. -/
def scenarioPre : List String := ["show version"]

/-- Configuration batch of the scenario. -/
def scenarioConfig : List String := ["set system ntp server 1.1.1.1"]

/-- Post-check batch of the scenario. -/
def scenarioPost : List String := ["show version"]

/-- Host 2's channel dies mid-run (during the post-check phase); the
other hosts run clean. -/
def scenarioMidFail (h : String) : HostBehavior :=
  if h = "h2" then HostBehavior.connected failPostChan
  else HostBehavior.connected goodChan

/-- Host 2's connection attempt fails outright; the other hosts run
clean. -/
def scenarioConnFail (h : String) : HostBehavior :=
  if h = "h2" then HostBehavior.connectFail "Connection refused"
  else HostBehavior.connected goodChan

example : cleanOutput "Uptime 10:00:00" = ["Uptime XX:XX:XX".toList] := by decide
example : cleanOutput "Uptime 10:00:05" = ["Uptime XX:XX:XX".toList] := by decide
example : cleanOutput "a 12:30:45.678 b\n\n  \nc" =
    ["a XX:XX:XX.XXX b".toList, "c".toList] := by decide
example : cleanOutput "x123:45:67y" = "x1XX:XX:XXy".toList :: [] := by decide

example : compareChanges "a\nb" "a\nb" =
    ⟨[], [], ["a".toList, "b".toList]⟩ := by decide
example : compareChanges "ntp-server 1.2.3.4\n" "ntp-server 5.6.7.8\n" =
    ⟨["ntp-server 5.6.7.8".toList], ["ntp-server 1.2.3.4".toList], []⟩ := by decide

example : unifiedDiff (cleanOutput "x 10:00:00") (cleanOutput "x 10:00:05") = [] := by
  decide

/-! ### Equal-input behaviour of the diff pipeline -/

theorem lcsFuel_self (f : Nat) :
    ∀ l : List (List Char), l.length ≤ f → lcsFuel f l l = l := by
  induction f with
  | zero =>
    intro l h
    cases l with
    | nil => rfl
    | cons a as => simp at h
  | succ f ih =>
    intro l h
    cases l with
    | nil => rfl
    | cons a as =>
      have h' : as.length ≤ f := by simpa using h
      simp [lcsFuel, ih as h']

theorem lcs_self (l : List (List Char)) : lcs l l = l :=
  lcsFuel_self _ l (by simp [Nat.le_add_right])

theorem buildDiffFuel_self (f : Nat) :
    ∀ l : List (List Char), l.length ≤ f →
      buildDiffFuel f l l l = l.map (fun c => (DiffTag.com, c)) := by
  induction f with
  | zero =>
    intro l h
    cases l with
    | nil => rfl
    | cons a as => simp at h
  | succ f ih =>
    intro l h
    cases l with
    | nil => rfl
    | cons a as =>
      have h' : as.length ≤ f := by simpa using h
      simp [buildDiffFuel, ih as h']

theorem buildDiff_self (l : List (List Char)) :
    buildDiff l l l = l.map (fun c => (DiffTag.com, c)) :=
  buildDiffFuel_self _ l (by simp [Nat.le_add_right])

theorem differCompare_self (l : List (List Char)) :
    differCompare l l = l.map (fun c => ' ' :: ' ' :: c) := by
  unfold differCompare
  rw [lcs_self, buildDiff_self, List.map_map]
  rfl

theorem categorize_common (l : List (List Char)) :
    categorize (l.map (fun c => ' ' :: ' ' :: c)) = ⟨[], [], l⟩ := by
  induction l with
  | nil => rfl
  | cons a as ih =>
    simp only [List.map, categorize, ih]
    rfl

theorem unifiedDiff_self (l : List (List Char)) : unifiedDiff l l = [] := by
  unfold unifiedDiff
  rw [lcs_self, buildDiff_self]
  simp

/-- C1: claims that diffing a text against itself yields empty `added`,
empty `removed` and empty `changed`.  The code yields empty `added` and
`removed`, but its categorization loop drops every line the comparison
tags as unchanged (tag `'  '`) into `changes['changed']`, so `changed`
holds all the normalized lines of the text — e.g. for the input
`"line1\nline2"` it is `["line1", "line2"]`, not `[]`. -/
theorem diff_self_changed_holds_common_lines :
    compareChanges "line1\nline2" "line1\nline2" =
      ⟨[], [], ["line1".toList, "line2".toList]⟩ ∧
    ∀ text : String, compareChanges text text = ⟨[], [], cleanOutput text⟩ := by
  refine ⟨by decide, fun text => ?_⟩
  unfold compareChanges
  rw [differCompare_self, categorize_common]

/-- C2: normalization replaces `HH:MM:SS(.frac)` timestamps with fixed
placeholders, and two captures with equal normalizations produce a diff
report with no differences: empty `added`, empty `removed`, and an empty
unified-diff body.  In particular `"Uptime 10:00:00"` and
`"Uptime 10:00:05"` both normalize to `"Uptime XX:XX:XX"`. -/
theorem normalization_hides_timestamp_changes :
    (∀ preOutput postOutput : String,
        cleanOutput preOutput = cleanOutput postOutput →
          (compareChanges preOutput postOutput).added = [] ∧
          (compareChanges preOutput postOutput).removed = [] ∧
          unifiedDiff (cleanOutput preOutput) (cleanOutput postOutput) = []) ∧
    cleanOutput "Uptime 10:00:00" = ["Uptime XX:XX:XX".toList] ∧
    cleanOutput "Uptime 10:00:05" = ["Uptime XX:XX:XX".toList] := by
  refine ⟨fun preOutput postOutput h => ?_, by decide, by decide⟩
  unfold compareChanges
  rw [h, differCompare_self, categorize_common, unifiedDiff_self]
  exact ⟨rfl, rfl, rfl⟩

/-- C2 witness: the spec's own example pair, with the hypothesis
(equal normalizations) discharged by evaluation. -/
theorem normalization_hides_timestamp_changes_witness :
    (compareChanges "Uptime 10:00:00" "Uptime 10:00:05").added = [] ∧
    (compareChanges "Uptime 10:00:00" "Uptime 10:00:05").removed = [] ∧
    unifiedDiff (cleanOutput "Uptime 10:00:00") (cleanOutput "Uptime 10:00:05") =
      [] :=
  normalization_hides_timestamp_changes.1 "Uptime 10:00:00" "Uptime 10:00:05"
    (by decide)

/-- C3: the report is a pure, deterministic function of the two captures
and the hostname.  The only volatile value `compare_outputs` reads, the
clock, flows into the report *filename* only: the report bytes are
byte-identical across two invocations at different times on identical
inputs. -/
theorem report_content_deterministic :
    ∀ preOutput postOutput hostname now1 now2 : String,
      (compareOutputs preOutput postOutput hostname now1).2 =
        (compareOutputs preOutput postOutput hostname now2).2 ∧
      (compareOutputs preOutput postOutput hostname now1).2 =
        reportContent preOutput postOutput hostname ∧
      (compareOutputs preOutput postOutput hostname now1).1 =
        hostname ++ "_diff_report_" ++ now1 ++ ".txt" :=
  fun _ _ _ _ _ => ⟨rfl, rfl, rfl⟩

example :
    (executeCommands [Step.ok "", Step.ok "", Step.ok "", Step.ok "commit ok"]
      ["set system ntp"] "cisco-ios").sends =
    ["terminal length 0", "configure terminal", "set system ntp", "end"] := by
  decide

theorem popRaw_okChan (q : List String) :
    popRaw (okChan q) = Except.ok (q.headD "", okChan q.tail) := by
  cases q <;> rfl

/-- C4: on a channel that raises no errors, `execute_commands` sends the
profile's config-mode-enter command immediately before the batch and the
profile's commit/exit command immediately after it precisely when some
command of the batch sniffs as configuration (case-insensitive
whitespace-stripped `set`/`conf` starting text); otherwise it sends just
the pagination command and the batch.  `"set system ntp"` sniffs as
configuration; `"show version"` does not. -/
theorem config_mode_bracketing :
    (∀ (commands : List String) (deviceType : String) (q : List String),
        (executeCommands (okChan q) commands deviceType).sends =
          if isConfigBatch commands then
            getPaginationCommand deviceType :: getConfigModeCommand deviceType ::
              commands ++ [getCommitCommand deviceType]
          else getPaginationCommand deviceType :: commands) ∧
    (∀ commands : List String,
        isConfigBatch commands = true ↔ ∃ cmd ∈ commands, sniffsConfig cmd = true) ∧
    sniffsConfig "set system ntp" = true ∧
    sniffsConfig "show version" = false := by
  refine ⟨fun commands deviceType q => ?_, fun commands => List.any_eq_true,
    by decide, by decide⟩
  by_cases hb : isConfigBatch commands
  · simp only [executeCommands, popRaw_okChan, hb, if_true]
  · simp only [executeCommands, popRaw_okChan, hb, if_false, Bool.false_eq_true]

example :
    (identifyDeviceType [Step.ok "x", Step.ok "Hostname: r1\nModel: mx104\n"]).outcome
      = Except.ok "juniper-mx" := by decide
example :
    (identifyDeviceType
      [Step.ok "syntax error at x", Step.ok "y",
       Step.ok "Cisco IOS Software ... ASR1001"]).outcome
      = Except.ok "cisco-ios-asr" := by decide
example :
    (identifyDeviceType [Step.ok "syntax error", Step.ok "", Step.ok ""]).outcome
      = Except.ok "unknown" := by decide
example :
    (identifyDeviceType
      [Step.ok "syntax error", Step.ok "", Step.ok "NX-OS N7K-C7010"]).outcome
      = Except.ok "cisco-nxos" := by decide
example :
    (identifyDeviceType
      [Step.ok "syntax error", Step.ok "", Step.ok "Arista DCS-7050"]).outcome
      = Except.ok "arista-dcs" := by decide

/-- C5 counterexample: the claim quantifies over version outputs that
contain *some* `Model:` line whose model holds `mx`, but the code uses
the *first* `Model:` capture.  Here the second line is a well-formed
`Model:` line whose model `mx104` contains `mx` and the probe response
carries no error indicator, yet identification returns `juniper-ex`
from the first capture `ex4300`. -/
theorem juniper_mx_some_model_line_refuted :
    (identifyDeviceType
      [Step.ok "", Step.ok "Model: ex4300\nModel: mx104"]).outcome
        = Except.ok "juniper-ex" ∧
    "juniper-ex" ≠ "juniper-mx" ∧
    containsSub (pyLower "".toList) "syntax error".toList = false ∧
    modelTokenAt "Model: mx104".toList = some "mx104".toList ∧
    containsSub (pyLower "mx104".toList) "mx".toList = true := by
  decide

/-- C5 (amended): when the first probe response contains no
syntax-error indicator and the *first* `^Model:\s*(\S+)` capture of the
version output contains `mx` (case-insensitively), identification
returns the Juniper-MX classification. -/
theorem juniper_mx_first_model_classification :
    ∀ (probeResponse versionOutput : String) (restChan : List Step)
      (tok : List Char),
      containsSub (pyLower probeResponse.toList) "syntax error".toList = false →
      juniperModelToken versionOutput = some tok →
      containsSub (pyLower tok) "mx".toList = true →
      (identifyDeviceType
          (Step.ok probeResponse :: Step.ok versionOutput :: restChan)).outcome
        = Except.ok "juniper-mx" := by
  intro probeResponse versionOutput restChan tok h1 h2 h3
  simp only [identifyDeviceType, popRaw, h1, Bool.not_false, if_true,
    popCollect, h2, classifyJuniperModel, h3]

/-- C5 witness: a concrete Juniper MX session transcript satisfying the
hypotheses. -/
theorem juniper_mx_first_model_classification_witness :
    (identifyDeviceType
        [Step.ok "", Step.ok "Junos: 20.4\nModel: MX104\nHostname: r1"]).outcome
      = Except.ok "juniper-mx" :=
  juniper_mx_first_model_classification "" "Junos: 20.4\nModel: MX104\nHostname: r1"
    [] "MX104".toList (by decide) (by decide) (by decide)

/-- C6: a fingerprint probe that produces no output at all (the channel
delivers empty reads throughout the Juniper probe and version windows)
raises nothing and is not retried: the Juniper probe is sent exactly
once, and identification falls through to the Cisco/Arista vendor
family test, whose classification of the eventual version output is the
result. -/
theorem silent_probe_falls_through :
    ∀ (clearResponse ciscoVersion : String),
      identifyDeviceType
          [Step.ok "", Step.ok "", Step.ok clearResponse, Step.ok ciscoVersion] =
        ⟨Except.ok (ciscoDetect ciscoVersion), [],
         ["set cli screen-length 0", "show version", "terminal length 0",
          "show version"]⟩ :=
  fun _ _ => rfl

/-! ## Reachable classifications -/

/-- Every Cisco/Arista classification string the detector can emit. -/
theorem ciscoDetect_mem (versionOutput : String) :
    ciscoDetect versionOutput ∈
      ["cisco-ios-asr", "cisco-ios-isr", "cisco-ios-csr", "cisco-ios-catalyst",
       "cisco-ios", "cisco-nxos", "cisco-nxos-unknown", "arista-dcs", "arista",
       "unknown"] := by
  simp only [ciscoDetect]
  split_ifs <;> simp

/-- Every Juniper classification string the detector can emit. -/
theorem classifyJuniperModel_mem (tok : List Char) :
    classifyJuniperModel tok ∈
      ["juniper-mx", "juniper-ex", "juniper-srx", "juniper-qfx",
       "juniper-unknown"] := by
  simp only [classifyJuniperModel]
  split_ifs <;> simp

/-- The full set of classification strings `identify_device_type` can
return. -/
theorem identifyDeviceType_ok_mem (ch : List Step) (s : String) :
    (identifyDeviceType ch).outcome = Except.ok s →
      s ∈ ["juniper-mx", "juniper-ex", "juniper-srx", "juniper-qfx",
           "juniper-unknown", "cisco-ios-asr", "cisco-ios-isr", "cisco-ios-csr",
           "cisco-ios-catalyst", "cisco-ios", "cisco-nxos", "cisco-nxos-unknown",
           "arista-dcs", "arista", "unknown"] := by
  have hcisco : ∀ (ch1 : List Step) (sends : List String),
      (identifyCiscoPart ch1 sends).outcome = Except.ok s →
        s ∈ ["juniper-mx", "juniper-ex", "juniper-srx", "juniper-qfx",
             "juniper-unknown", "cisco-ios-asr", "cisco-ios-isr", "cisco-ios-csr",
             "cisco-ios-catalyst", "cisco-ios", "cisco-nxos", "cisco-nxos-unknown",
             "arista-dcs", "arista", "unknown"] := by
    intro ch1 sends h
    unfold identifyCiscoPart at h
    cases hr : popRaw ch1 with
    | error m => rw [hr] at h; exact absurd h (by simp)
    | ok p =>
      rw [hr] at h
      simp only [Except.ok.injEq] at h
      have := ciscoDetect_mem (popCollect p.2).1
      rw [h] at this
      simp only [List.mem_cons, List.not_mem_nil, or_false] at this ⊢
      tauto
  unfold identifyDeviceType
  cases hr : popRaw ch with
  | error m => intro h; exact absurd h (by simp)
  | ok p =>
    simp only
    by_cases hse :
        (!containsSub (pyLower p.1.toList) "syntax error".toList) = true
    · rw [hse]
      simp only [if_true]
      cases hm : juniperModelToken (popCollect p.2).1 with
      | some tok =>
        intro h
        simp only [Except.ok.injEq] at h
        have := classifyJuniperModel_mem tok
        rw [h] at this
        simp only [List.mem_cons, List.not_mem_nil, or_false] at this ⊢
        tauto
      | none => exact hcisco _ _
    · rw [Bool.not_eq_true] at hse
      rw [hse]
      simp only [Bool.false_eq_true, if_false]
      exact hcisco _ _

/-- C10: for every Juniper classification the detector can actually
return, the three command tables fall back to the default dialect — the
tables key Juniper commands under the exact string `"juniper"`, which
the detector never returns, so the Juniper dialect entries are
unreachable. -/
theorem juniper_dialect_unreachable :
    (∀ dt ∈ ["juniper-mx", "juniper-ex", "juniper-srx", "juniper-qfx",
             "juniper-unknown"],
        getPaginationCommand dt = "terminal length 0" ∧
        getConfigModeCommand dt = "configure terminal" ∧
        getCommitCommand dt = "end") ∧
    (getPaginationCommand "juniper", getConfigModeCommand "juniper",
      getCommitCommand "juniper") =
      ("set cli screen-length 0", "configure", "commit and-quit") ∧
    ∀ (ch : List Step) (s : String),
      (identifyDeviceType ch).outcome = Except.ok s → s ≠ "juniper" := by
  refine ⟨by decide, by decide, fun ch s h => ?_⟩
  have hm := identifyDeviceType_ok_mem ch s h
  simp only [List.mem_cons, List.not_mem_nil, or_false] at hm
  rcases hm with h' | h' | h' | h' | h' | h' | h' | h' | h' | h' | h' | h' |
    h' | h' | h' <;> subst h' <;> decide

/-- C10 witness: a concrete session whose classification is
`juniper-mx`, on which the lookups return the default triple and the
string `"juniper"` is indeed not the classification. -/
theorem juniper_dialect_unreachable_witness :
    (getPaginationCommand "juniper-mx" = "terminal length 0" ∧
      getConfigModeCommand "juniper-mx" = "configure terminal" ∧
      getCommitCommand "juniper-mx" = "end") ∧
    "juniper-mx" ≠ "juniper" :=
  ⟨juniper_dialect_unreachable.1 "juniper-mx" (by decide),
   juniper_dialect_unreachable.2.2 [Step.ok "x", Step.ok "Model: mx104"]
     "juniper-mx" (by decide)⟩

theorem collectLoop_ticks (chan : Nat → Poll) (fuel : Nat) :
    ∀ (tick : Nat) (acc : String),
      (collectLoop chan fuel tick acc).2 ≤ tick + fuel := by
  induction fuel with
  | zero => intro tick acc; exact Nat.le_add_right tick 0
  | succ fuel ih =>
    intro tick acc
    rw [collectLoop]
    cases chan tick with
    | ready s =>
      dsimp only
      by_cases hs : s = ""
      · rw [if_pos hs]; exact Nat.le_add_right tick (fuel + 1)
      · rw [if_neg hs]
        have h := ih (tick + 1) (acc ++ s)
        omega
    | notReady =>
      dsimp only
      have h := ih (tick + 1) acc
      omega
    | raised => exact Nat.le_add_right tick (fuel + 1)

theorem collectLoop_silent (chan : Nat → Poll)
    (hsilent : ∀ i, chan i = Poll.notReady) (fuel : Nat) :
    ∀ (tick : Nat) (acc : String),
      collectLoop chan fuel tick acc = (acc, tick + fuel) := by
  induction fuel with
  | zero => intro tick acc; rfl
  | succ fuel ih =>
    intro tick acc
    have hred : collectLoop chan (fuel + 1) tick acc =
        collectLoop chan fuel (tick + 1) acc := by
      rw [collectLoop, hsilent tick]
    rw [hred, ih (tick + 1) acc]
    have harith : tick + 1 + fuel = tick + (fuel + 1) := by omega
    rw [harith]

/-- C9: the output collection loop always terminates within its
configured window: for every channel behaviour — including one that
never reports data — it runs at most `timeout` polling ticks and then
returns whatever text accumulated; on a channel that never reports
ready it returns the empty string after exactly the window, and
delivered chunks separated by idle ticks are all accumulated. -/
theorem collection_window_bounded :
    (∀ (timeout : Nat) (chan : Nat → Poll),
        (getCommandOutput timeout chan).2 ≤ timeout) ∧
    (∀ (timeout : Nat) (chan : Nat → Poll),
        (∀ i, chan i = Poll.notReady) →
          getCommandOutput timeout chan = ("", timeout)) ∧
    getCommandOutput 5 (fun i =>
        if i = 0 then Poll.ready "a" else
        if i = 2 then Poll.ready "b" else Poll.notReady) = ("ab", 5) := by
  refine ⟨fun timeout chan => ?_, fun timeout chan h => ?_, by decide⟩
  · simpa using collectLoop_ticks chan timeout 0 ""
  · simpa using collectLoop_silent chan h timeout 0 ""

/-- C9 witness: a three-tick window over a channel that never reports
data returns empty output after exactly its window. -/
theorem collection_window_bounded_witness :
    getCommandOutput 3 (fun _ => Poll.notReady) = ("", 3) ∧
    (getCommandOutput 3 (fun _ => Poll.notReady)).2 ≤ 3 :=
  ⟨collection_window_bounded.2.1 3 (fun _ => Poll.notReady) (fun _ => rfl),
   collection_window_bounded.1 3 (fun _ => Poll.notReady)⟩

/-! ### Per-host isolation -/

theorem dictUpdate_append (d : List (String × HostResult)) (k : String)
    (r : HostResult) (hk : k ∉ d.map Prod.fst) :
    dictUpdate d k r = d ++ [(k, r)] := by
  induction d with
  | nil => rfl
  | cons e rest ih =>
    simp only [List.map_cons, List.mem_cons] at hk
    push_neg at hk
    simp only [dictUpdate, if_neg (Ne.symm hk.1), List.cons_append]
    rw [ih hk.2]

theorem configPush_foldl (preC configC postC : List String)
    (bhv : String → HostBehavior) :
    ∀ (hosts : List String) (d : List (String × HostResult)),
      (hosts.map pyStripS).Nodup →
      (∀ h ∈ hosts, pyStripS h ∉ d.map Prod.fst) →
      hosts.foldl
          (fun results hostname =>
            dictUpdate results (pyStripS hostname)
              (runHost preC configC postC (bhv (pyStripS hostname)))) d
        = d ++ hosts.map
            (fun h => (pyStripS h, runHost preC configC postC (bhv (pyStripS h)))) := by
  intro hosts
  induction hosts with
  | nil => intro d _ _; simp
  | cons h hs ih =>
    intro d hnd hnotin
    simp only [List.map_cons, List.nodup_cons] at hnd
    simp only [List.foldl_cons, List.map_cons]
    rw [dictUpdate_append d _ _ (hnotin h (List.mem_cons_self h hs))]
    rw [ih _ hnd.2 ?_]
    · rw [List.append_assoc]
      rfl
    · intro h' hh'
      simp only [List.map_append, List.mem_append, List.map_cons,
        List.map_nil, List.mem_singleton]
      push_neg
      refine ⟨hnotin h' (List.mem_cons_of_mem h hh'), fun he => ?_⟩
      exact hnd.1 (he ▸ List.mem_map_of_mem pyStripS hh')

/-- C7 (amended): host processing is isolated — with distinct (stripped)
hostnames the result set is exactly one entry per host, each entry a
function of that host's own behaviour alone; a host whose connection
attempt raises carries the error marker and no transcripts; and every
host's entry either carries an error marker or carries all three phase
transcripts (a mid-run channel failure keeps the transcripts of the
phases that completed before it — see the counterexample). -/
theorem per_host_isolation :
    ∀ (hosts : List String) (bhv : String → HostBehavior)
      (preC configC postC : List String),
      (hosts.map pyStripS).Nodup →
      configPush hosts bhv preC configC postC =
          hosts.map (fun h =>
            (pyStripS h, runHost preC configC postC (bhv (pyStripS h)))) ∧
      (∀ m, runHost preC configC postC (HostBehavior.connectFail m) =
          ⟨none, none, none, some m⟩) ∧
      (∀ b, (runHost preC configC postC b).error.isSome = true ∨
          ((runHost preC configC postC b).pre_check.isSome = true ∧
           (runHost preC configC postC b).config.isSome = true ∧
           (runHost preC configC postC b).post_check.isSome = true)) := by
  intro hosts bhv preC configC postC hnd
  refine ⟨?_, fun m => rfl, fun b => ?_⟩
  · rw [configPush, configPush_foldl preC configC postC bhv hosts [] hnd
      (by intro h _; simp)]
    rfl
  · cases b with
    | connectFail m => left; rfl
    | connected ch =>
      simp only [runHost, runHostTrace]
      split
      · left; rfl
      · split
        · left; rfl
        · split
          · left; rfl
          · split
            · left; rfl
            · right; exact ⟨rfl, rfl, rfl⟩

/-- C7 counterexample: the claim as stated requires a host with a
channel failure to carry *no* phase transcripts, but a channel failure
during the post-check phase leaves the already-written pre-check and
config transcripts in the host's entry alongside the error marker. -/
theorem failed_host_keeps_completed_transcripts :
    (configPush scenarioHosts scenarioMidFail scenarioPre scenarioConfig
        scenarioPost).lookup "h2"
      = some ⟨some "pre-out", some "set-outcommit-out", none,
              some "Socket is closed"⟩ ∧
    ¬ (∀ e ∈ configPush scenarioHosts scenarioMidFail scenarioPre
          scenarioConfig scenarioPost,
        e.2.error ≠ none →
          e.2.pre_check = none ∧ e.2.config = none ∧ e.2.post_check = none) := by
  decide

/-- C7 witness: the spec's scenario — three hosts, a connection failure
on host 2 — evaluated through the isolation theorem: three entries,
hosts 1 and 3 with full transcripts and no error, host 2 with the error
marker and no transcripts. -/
theorem per_host_isolation_witness :
    configPush scenarioHosts scenarioConnFail scenarioPre scenarioConfig
        scenarioPost =
      [("h1", ⟨some "pre-out", some "set-outcommit-out", some "post-out", none⟩),
       ("h2", ⟨none, none, none, some "Connection refused"⟩),
       ("h3", ⟨some "pre-out", some "set-outcommit-out", some "post-out", none⟩)] := by
  rw [(per_host_isolation scenarioHosts scenarioConnFail scenarioPre
    scenarioConfig scenarioPost (by decide)).1]
  decide

/-- C8: within one session run the device classification is derived
exactly once, by `identify_device_type` on the fresh channel before any
phase, and every phase's `execute_commands` call receives that same
classification; a run that completes without error uses it for exactly
the three phases pre-check, config, post-check. -/
theorem classification_derived_once :
    ∀ (preC configC postC : List String) (ch : List Step),
      (∀ dt ∈ (runHostTrace preC configC postC (HostBehavior.connected ch)).2,
          (identifyDeviceType ch).outcome = Except.ok dt) ∧
      ((runHostTrace preC configC postC (HostBehavior.connected ch)).2.length ≤ 3) ∧
      ((runHostTrace preC configC postC (HostBehavior.connected ch)).1.error = none →
        ∀ dt, (identifyDeviceType ch).outcome = Except.ok dt →
          (runHostTrace preC configC postC (HostBehavior.connected ch)).2 =
            [dt, dt, dt]) := by
  intro preC configC postC ch
  simp only [runHostTrace]
  split
  · exact ⟨by simp, by simp, by simp⟩
  · rename_i dt0 ch1 sends heq
    rw [heq]
    split
    · refine ⟨?_, by simp, by simp⟩
      intro dt hdt
      simp only [List.mem_singleton] at hdt
      subst hdt
      rfl
    · split
      · refine ⟨?_, by simp, by simp⟩
        intro dt hdt
        simp only [List.mem_cons, List.not_mem_nil, or_false] at hdt
        rcases hdt with h | h <;> subst h <;> rfl
      · split
        · refine ⟨?_, by simp, by simp⟩
          intro dt hdt
          simp only [List.mem_cons, List.not_mem_nil, or_false] at hdt
          rcases hdt with h | h | h <;> subst h <;> rfl
        · refine ⟨?_, by simp, ?_⟩
          · intro dt hdt
            simp only [List.mem_cons, List.not_mem_nil, or_false] at hdt
            rcases hdt with h | h | h <;> subst h <;> rfl
          · intro _ dt hdt
            have h0 : Except.ok (ε := String) dt0 = Except.ok dt := hdt
            injection h0 with h0
            subst h0
            rfl

/-- C8 witness: on the concrete successful session channel the
classification used by the first phase is the one identification
produced. -/
theorem classification_derived_once_witness :
    (identifyDeviceType goodChan).outcome = Except.ok "juniper-mx" :=
  (classification_derived_once scenarioPre scenarioConfig scenarioPost
    goodChan).1 "juniper-mx" (by decide)

end NetworkTool
